import Mathlib

/-!
Verification development for src/provider.ts of the references-view tree layer.

The file shallowly embeds the data model and the operations of
`ReferencesProvider`, `CallItemDataProvider`, `HistoryDataProvider` and the
polymorphic façade `TreeDataProviderWrapper`.  Domain models (`ReferencesModel`,
`CallsModel`, `History`) live outside src/provider.ts; they are embedded only
through the surface the provider code reads (`items`, `results`, `roots`,
`resolveCalls`, iteration of the history), following the spec's description of
those collaborators.  Stateful event plumbing (emitters, subscriptions,
disposables) is embedded as explicit state passing over a façade-state record,
with `update` decomposed into the micro-steps the TypeScript method performs in
source order.
-/

/-- A source position inside a document (the part of a `vscode.Range` the
embedding needs to distinguish match locations). -/
structure Location where
  line : Nat
  character : Nat
deriving DecidableEq

/-- `FileItem` from models.ts as read by provider.ts: a file identity (`uri`)
owning an ordered sequence of match locations (`results`).  The locations
materialize into `ReferenceItem`s whose `parent` is this file. -/
structure FileItem where
  uri : String
  results : List Location
deriving DecidableEq

/-- `ReferenceItem`: one match inside a file, holding a back-reference to its
owning `FileItem` (`parent`) and its source location. -/
structure ReferenceItem where
  parent : FileItem
  location : Location
deriving DecidableEq

/-- `vscode.SymbolKind`: all 26 classifications, File through TypeParameter. -/
inductive SymbolKind
  | file
  | module
  | nmspace
  | package
  | classK
  | method
  | property
  | fieldK
  | ctor
  | enumK
  | interfaceK
  | functionK
  | variableK
  | constantK
  | stringK
  | numberK
  | booleanK
  | arrayK
  | objectK
  | keyK
  | nullK
  | enumMember
  | structK
  | eventK
  | operatorK
  | typeParameter
deriving DecidableEq

/-- The `item` payload of a call-hierarchy node: symbol name, detail string and
symbol-kind classification (the fields provider.ts reads). -/
structure CallSymbol where
  name : String
  detail : String
  kind : SymbolKind
deriving DecidableEq

/-- `CallItem` (imported as `CallHierarchyItem`): one entry in a call-hierarchy
traversal with a stored parent reference (`none` for a root). -/
inductive CallItem
  | mk (item : CallSymbol) (parent : Option CallItem)

/-- The symbol payload of a call node. -/
def CallItem.item : CallItem → CallSymbol
  | .mk i _ => i

/-- The stored parent reference of a call node. -/
def CallItem.parent : CallItem → Option CallItem
  | .mk _ p => p

/-- `HistoryItem`: a record of a prior navigation with the fields provider.ts
reads (`label`, `description`). -/
structure HistoryItem where
  label : String
  description : String
deriving DecidableEq

/-- The node union `type TreeItem = FileItem | ReferenceItem | HistoryItem |
CallHierarchyItem` of provider.ts, as a closed sum. -/
inductive Node
  | file (f : FileItem)
  | reference (r : ReferenceItem)
  | call (c : CallItem)
  | history (h : HistoryItem)

/-- `ReferencesModel` as read by provider.ts: `items` are the root file groups. -/
structure ReferencesModel where
  items : List FileItem

/-- `CallsModel` as read by provider.ts: `roots` are the hierarchy entry points
and `resolveCalls` answers a node's outgoing/incoming calls. -/
structure CallsModel where
  roots : List CallItem
  resolveCalls : CallItem → List CallItem

/-- The history collaborator: provider.ts only iterates it
(`[...this._history]`), so it is an ordered sequence of history records. -/
def History := List HistoryItem

/-- The tagged union of the three domain models that `update` discriminates by
runtime type (`instanceof ReferencesModel` / `instanceof CallsModel` / else). -/
inductive Model
  | references (m : ReferencesModel)
  | calls (m : CallsModel)
  | history (h : History)

/-- `vscode.TreeItemCollapsibleState`. -/
inductive CollapsibleState
  | noneState
  | collapsed
  | expanded
deriving DecidableEq

/-- A `vscode.TreeItemLabel`: label text plus highlight spans. -/
structure TreeItemLabel where
  label : String
  highlights : List (Nat × Nat)
deriving DecidableEq

/-- A tree item's label is either a plain string (`new TreeItem(name)`) or a
rich `TreeItemLabel` (`new TreeItem2(label)`). -/
inductive LabelValue
  | plain (s : String)
  | rich (l : TreeItemLabel)
deriving DecidableEq

/-- A `vscode.Command` attached to a tree item; arguments carry nodes. -/
structure Command where
  command : String
  title : String
  arguments : List Node

/-- The icon of a tree item: the builtin `ThemeIcon.File` or a theme icon
constructed from an id. -/
inductive IconPath
  | themeIconFile
  | themeIcon (id : String)
deriving DecidableEq

/-- `TreeItem.description` is either a boolean flag (derive from resource) or a
string. -/
inductive DescriptionValue
  | flag (b : Bool)
  | text (s : String)
deriving DecidableEq

/-- The rendered `vscode.TreeItem`, restricted to the fields provider.ts sets. -/
structure TreeItem where
  resourceUri : Option String
  label : Option LabelValue
  description : Option DescriptionValue
  contextValue : Option String
  iconPath : Option IconPath
  command : Option Command
  collapsibleState : CollapsibleState

/-- The preview chunks computed by the external collaborator
`getPreviewChunks(doc, range)`: text before the match, the matched text, text
after. -/
structure PreviewChunks where
  before : String
  inside : String
  after : String

/-- The listener `ReferencesProvider`'s constructor registers on its model:
`e => this._onDidChangeTreeData.fire(e instanceof FileItem ? e : undefined)`.
The result is the ordered list of events fired on the adapter's change stream
in reaction to one model event (`none` encodes the payloadless full refresh). -/
def ReferencesProvider.onModelEvent (e : Option Node) : List (Option Node) :=
  [match e with
   | some (Node.file f) => some (Node.file f)
   | _ => none]

/-- `ReferencesProvider.getTreeItem`, with the external document fetch and
`getPreviewChunks` abstracted as `chunksOf`.  The undefined behaviour of
passing a node outside the adapter's element type is `none`. -/
def ReferencesProvider.getTreeItem (chunksOf : ReferenceItem → PreviewChunks) :
    Node → Option TreeItem
  | Node.file f => some
      { resourceUri := some f.uri
        label := none
        description := some (DescriptionValue.flag true)
        contextValue := some "file-item"
        iconPath := some IconPath.themeIconFile
        command := none
        collapsibleState := CollapsibleState.collapsed }
  | Node.reference r =>
      let c := chunksOf r
      some
      { resourceUri := none
        label := some (LabelValue.rich
          { label := c.before ++ c.inside ++ c.after
            highlights := [(c.before.length, c.before.length + c.inside.length)] })
        description := none
        contextValue := some "reference-item"
        iconPath := none
        command := some
          { command := "references-view.show"
            title := "Open Reference"
            arguments := [Node.reference r] }
        collapsibleState := CollapsibleState.noneState }
  | _ => none

/-- `ReferencesProvider.getChildren`: no element gives the model's root file
groups; a `FileItem` gives its materialized `ReferenceItem`s; any other element
falls off the function body, i.e. answers `undefined` (`none`). -/
def ReferencesProvider.getChildren (m : ReferencesModel) :
    Option Node → Option (List Node)
  | none => some (m.items.map Node.file)
  | some (Node.file f) =>
      some (f.results.map (fun loc => Node.reference { parent := f, location := loc }))
  | some _ => none

/-- `ReferencesProvider.getParent`:
`element instanceof ReferenceItem ? element.parent : undefined`. -/
def ReferencesProvider.getParent : Node → Option Node
  | Node.reference r => some (Node.file r.parent)
  | _ => none

/-- The static table `CallItemDataProvider._themeIconIds`, keyed by symbol
kind.  The TypeScript object literal lists an id for each of the 26 kinds; a
kind without an entry would answer `undefined` (`none`). -/
def CallItemDataProvider.themeIconIds : SymbolKind → Option String
  | .file => some "symbol-file"
  | .module => some "symbol-module"
  | .nmspace => some "symbol-namespace"
  | .package => some "symbol-package"
  | .classK => some "symbol-class"
  | .method => some "symbol-method"
  | .property => some "symbol-property"
  | .fieldK => some "symbol-field"
  | .ctor => some "symbol-constructor"
  | .enumK => some "symbol-enum"
  | .interfaceK => some "symbol-interface"
  | .functionK => some "symbol-function"
  | .variableK => some "symbol-variable"
  | .constantK => some "symbol-constant"
  | .stringK => some "symbol-string"
  | .numberK => some "symbol-number"
  | .booleanK => some "symbol-boolean"
  | .arrayK => some "symbol-array"
  | .objectK => some "symbol-object"
  | .keyK => some "symbol-key"
  | .nullK => some "symbol-null"
  | .enumMember => some "symbol-enum-member"
  | .structK => some "symbol-struct"
  | .eventK => some "symbol-event"
  | .operatorK => some "symbol-operator"
  | .typeParameter => some "symbol-type-parameter"

/-- `CallItemDataProvider._getThemeIcon`: look the kind up in the table and
return `id && new vscode.ThemeIcon(id)` — a missing or falsy (empty) id yields
no icon. -/
def CallItemDataProvider.getThemeIcon (kind : SymbolKind) : Option IconPath :=
  match CallItemDataProvider.themeIconIds kind with
  | some id => if id = "" then none else some (IconPath.themeIcon id)
  | none => none

/-- `CallItemDataProvider`'s reaction to a model change event.  Its constructor
body is empty: no listener is registered on the model and nothing in the class
ever fires `_emitter`, so the adapter's change stream emits nothing. -/
def CallItemDataProvider.onModelEvent (_e : Option Node) : List (Option Node) :=
  []

/-- `CallItemDataProvider.getTreeItem`. -/
def CallItemDataProvider.getTreeItem : Node → Option TreeItem
  | Node.call c => some
      { resourceUri := none
        label := some (LabelValue.plain c.item.name)
        description := some (DescriptionValue.text c.item.detail)
        contextValue := some "call-item"
        iconPath := CallItemDataProvider.getThemeIcon c.item.kind
        command := some
          { command := "references-view.show"
            title := "Open Call"
            arguments := [Node.call c] }
        collapsibleState := CollapsibleState.collapsed }
  | _ => none

/-- `CallItemDataProvider.getChildren`: no element gives the model's roots,
a call node is resolved through the model; other nodes are outside the
adapter's element type (`none`). -/
def CallItemDataProvider.getChildren (m : CallsModel) :
    Option Node → Option (List Node)
  | none => some (m.roots.map Node.call)
  | some (Node.call c) => some ((m.resolveCalls c).map Node.call)
  | some _ => none

/-- `CallItemDataProvider.getParent`: read directly from the stored parent. -/
def CallItemDataProvider.getParent : Node → Option Node
  | Node.call c => (c.parent).map Node.call
  | _ => none

/-- `HistoryDataProvider.getTreeItem`. -/
def HistoryDataProvider.getTreeItem : Node → Option TreeItem
  | Node.history h => some
      { resourceUri := none
        label := some (LabelValue.plain h.label)
        description := some (DescriptionValue.text h.description)
        contextValue := some "history-item"
        iconPath := none
        command := some
          { command := "references-view.show"
            title := "Show"
            arguments := [Node.history h] }
        collapsibleState := CollapsibleState.noneState }
  | _ => none

/-- `HistoryDataProvider.getChildren()`: the TypeScript method declares no
element parameter, so the element the wrapper passes is ignored and the full
history snapshot `[...this._history]` is returned for every request. -/
def HistoryDataProvider.getChildren (h : History) (_el : Option Node) :
    Option (List Node) :=
  some (h.map Node.history)

/-- `HistoryDataProvider.getParent()`: always `undefined`. -/
def HistoryDataProvider.getParent (_el : Node) : Option Node :=
  none

/-- The adapters the façade can hold: each pairs one provider implementation
with its bound domain model. -/
inductive Adapter
  | references (m : ReferencesModel)
  | callItems (m : CallsModel)
  | historyData (h : History)

/-- The `typeof (provider).dispose === 'function'` test in `update`: of the
three providers only `ReferencesProvider` declares a `dispose` method. -/
def Adapter.hasDispose : Adapter → Bool
  | .references _ => true
  | _ => false

/-- Whether the provider's constructor registers a listener on its model:
`ReferencesProvider`'s constructor stores `_model.onDidChange(...)` in
`_modelListener`; the other two constructors have empty bodies. -/
def Adapter.ctorSubscribes : Adapter → Bool
  | .references _ => true
  | _ => false

/-- The `instanceof` chain of `TreeDataProviderWrapper.update`:
`ReferencesModel` gives a `ReferencesProvider`, `CallsModel` a
`CallItemDataProvider`, anything else a `HistoryDataProvider`. -/
def adapterFor : Model → Adapter
  | .references m => .references m
  | .calls m => .callItems m
  | .history h => .historyData h

/-- Delegated `getTreeItem` of the active adapter. -/
def Adapter.getTreeItem (chunksOf : ReferenceItem → PreviewChunks) :
    Adapter → Node → Option TreeItem
  | .references _, el => ReferencesProvider.getTreeItem chunksOf el
  | .callItems _, el => CallItemDataProvider.getTreeItem el
  | .historyData _, el => HistoryDataProvider.getTreeItem el

/-- Delegated `getChildren` of the active adapter. -/
def Adapter.getChildren : Adapter → Option Node → Option (List Node)
  | .references m, el => ReferencesProvider.getChildren m el
  | .callItems m, el => CallItemDataProvider.getChildren m el
  | .historyData h, el => HistoryDataProvider.getChildren h el

/-- Delegated `getParent` of the active adapter. -/
def Adapter.getParent : Adapter → Node → Option Node
  | .references _, el => ReferencesProvider.getParent el
  | .callItems _, el => CallItemDataProvider.getParent el
  | .historyData _, el => HistoryDataProvider.getParent el

/-- The observable state of a `TreeDataProviderWrapper` object:
`active` is the `_provider` slot, `providerListener` whether
`_providerListener` holds a live subscription to the active adapter's stream,
`emitterId` the identity of the `_onDidChange` emitter object, `fired` the
ordered trace of events fired through that emitter, `orphanSubs` the number of
live model subscriptions held by adapters no longer in the slot, and
`activeSubscribed` whether the adapter in the slot holds a live subscription
to its model. -/
structure FacadeState where
  active : Option Adapter
  providerListener : Bool
  emitterId : Nat
  fired : List (Option Node)
  orphanSubs : Nat
  activeSubscribed : Bool

/-- One statement of the body of `TreeDataProviderWrapper.update`, in source
order: dispose `_providerListener`; dispose the old provider; construct and
store the new provider; fire the outward emitter with no payload; subscribe to
the new provider's change stream. -/
inductive Step
  | disposeListener
  | disposeProvider
  | setProvider (m : Model)
  | fireRefresh
  | subscribe

/-- Effect of one statement on the façade state.  Disposing a provider
(`ReferencesProvider.dispose`) releases its `_modelListener` and clears the
slot; constructing a provider subscribes it to its model exactly when the
constructor registers a listener; an adapter dropped from the slot without
being disposed keeps any model subscription it holds (it becomes orphaned). -/
def applyStep (s : FacadeState) : Step → FacadeState
  | .disposeListener => { s with providerListener := false }
  | .disposeProvider => { s with active := none, activeSubscribed := false }
  | .setProvider m =>
      { s with
        orphanSubs := s.orphanSubs + (if s.activeSubscribed then 1 else 0)
        active := some (adapterFor m)
        activeSubscribed := (adapterFor m).ctorSubscribes }
  | .fireRefresh => { s with fired := s.fired ++ [none] }
  | .subscribe => { s with providerListener := true }

/-- Run a sequence of statements from a state. -/
def runSteps (s : FacadeState) (l : List Step) : FacadeState :=
  l.foldl applyStep s

/-- The statements `TreeDataProviderWrapper.update(model)` executes from state
`s`, in source order: the two conditional dispose blocks, then construct and
store, fire, subscribe. -/
def updateSteps (s : FacadeState) (m : Model) : List Step :=
  (if s.providerListener then [Step.disposeListener] else []) ++
  (match s.active with
   | some a => if a.hasDispose then [Step.disposeProvider] else []
   | none => []) ++
  [Step.setProvider m, Step.fireRefresh, Step.subscribe]

/-- `TreeDataProviderWrapper.update`. -/
def TreeDataProviderWrapper.update (s : FacadeState) (m : Model) : FacadeState :=
  runSteps s (updateSteps s m)

/-- `TreeDataProviderWrapper.getTreeItem`: the non-null assertion
`this._provider!` makes an unbound query a runtime fault (a thrown
`TypeError`), embedded as `Except.error`. -/
def TreeDataProviderWrapper.getTreeItem (chunksOf : ReferenceItem → PreviewChunks)
    (s : FacadeState) (el : Node) : Except String (Option TreeItem) :=
  match s.active with
  | none => Except.error "TypeError: this._provider is undefined"
  | some a => Except.ok (a.getTreeItem chunksOf el)

/-- `TreeDataProviderWrapper.getChildren`: optional chaining
`this._provider?.getChildren(element)` answers `undefined` when unbound; the
provider's own `undefined` answer collapses to the same value. -/
def TreeDataProviderWrapper.getChildren (s : FacadeState) (el : Option Node) :
    Option (List Node) :=
  match s.active with
  | none => none
  | some a => a.getChildren el

/-- `TreeDataProviderWrapper.getParent` with optional chaining. -/
def TreeDataProviderWrapper.getParent (s : FacadeState) (el : Node) :
    Option Node :=
  match s.active with
  | none => none
  | some a => a.getParent el

/-- The forwarding listener `e => this._onDidChange.fire(e)` installed by
`update`: an event of the active adapter's stream is fired on the outward
emitter unmodified while the subscription is live. -/
def deliverAdapterEvent (s : FacadeState) (e : Option Node) : FacadeState :=
  if s.providerListener then { s with fired := s.fired ++ [e] } else s

/-- A freshly constructed wrapper: no provider, no subscription, the outward
emitter created at field initialization, nothing fired yet. -/
def initState : FacadeState :=
  { active := none
    providerListener := false
    emitterId := 0
    fired := []
    orphanSubs := 0
    activeSubscribed := false }

/-- Number of live adapter-to-model subscriptions in existence. -/
def liveSubs (s : FacadeState) : Nat :=
  s.orphanSubs + (if s.activeSubscribed then 1 else 0)

/-- Facade-state invariant: no orphaned model subscription exists, and the
slot's adapter holds a model subscription only if it is a
`ReferencesProvider` (the one provider whose constructor subscribes). -/
def FacadeInv (s : FacadeState) : Prop :=
  s.orphanSubs = 0 ∧
  (s.activeSubscribed = true → ∃ rm, s.active = some (Adapter.references rm))

/-- Discriminator for the outward-fire and subscribe statements of `update`. -/
def Step.isFireOrSubscribe : Step → Bool
  | .fireRefresh => true
  | .subscribe => true
  | _ => false

/-- Claim C1: every call of `TreeDataProviderWrapper.update`, from any state
and with any model, fires exactly one payloadless full-refresh event on the
outward emitter synchronously during the call (the fired trace grows by
exactly `[none]`), and among the statements `update` executes the outward fire
comes strictly before the subscription to the newly constructed adapter's
change stream — so the refresh precedes every event sourced from the new
model's stream, all of which are forwarded only after `subscribe`. -/
theorem update_fires_single_refresh_before_subscribe
    (s : FacadeState) (m : Model) :
    (TreeDataProviderWrapper.update s m).fired = s.fired ++ [none] ∧
    (updateSteps s m).filter Step.isFireOrSubscribe
      = [Step.fireRefresh, Step.subscribe] := by
  cases hb : s.providerListener <;>
    rcases ha : s.active with _ | (rm | cm | hh) <;>
    exact ⟨by simp [TreeDataProviderWrapper.update, updateSteps, runSteps, applyStep,
             hb, ha, Adapter.hasDispose],
           by simp [updateSteps, hb, ha, Adapter.hasDispose, Step.isFireOrSubscribe]⟩

/-- Claim C6: the outward change-emitter instance is never replaced.  `update`
leaves the emitter identity unchanged from any state, forwarding an adapter
event also leaves it unchanged, and after any `update` the forwarding
subscription is live, so an event of the newly bound adapter is fired through
that same emitter (appended to the same outward trace).  As this holds for
every state, it holds across arbitrarily many `update` calls. -/
theorem update_preserves_outward_emitter
    (s : FacadeState) (m : Model) (e : Option Node) :
    (TreeDataProviderWrapper.update s m).emitterId = s.emitterId ∧
    (deliverAdapterEvent s e).emitterId = s.emitterId ∧
    (TreeDataProviderWrapper.update s m).providerListener = true ∧
    deliverAdapterEvent (TreeDataProviderWrapper.update s m) e
      = { TreeDataProviderWrapper.update s m with
          fired := (TreeDataProviderWrapper.update s m).fired ++ [e] } := by
  have hl : (TreeDataProviderWrapper.update s m).providerListener = true := by
    cases hb : s.providerListener <;>
      rcases ha : s.active with _ | (rm | cm | hh) <;>
      simp [TreeDataProviderWrapper.update, updateSteps, runSteps, applyStep,
        hb, ha, Adapter.hasDispose]
  refine ⟨?_, ?_, hl, ?_⟩
  · cases hb : s.providerListener <;>
      rcases ha : s.active with _ | (rm | cm | hh) <;>
      simp [TreeDataProviderWrapper.update, updateSteps, runSteps, applyStep,
        hb, ha, Adapter.hasDispose]
  · unfold deliverAdapterEvent
    split <;> rfl
  · simp [deliverAdapterEvent, hl]

/-- Claim C8: `update` selects the adapter by the runtime type of its model
argument — a `ReferencesModel` yields a `ReferencesProvider`, a `CallsModel`
yields a `CallItemDataProvider`, and a history collaborator yields a
`HistoryDataProvider` — and stores it as the active adapter. -/
theorem update_selects_adapter_by_model_type (s : FacadeState) :
    (∀ rm, (TreeDataProviderWrapper.update s (Model.references rm)).active
      = some (Adapter.references rm)) ∧
    (∀ cm, (TreeDataProviderWrapper.update s (Model.calls cm)).active
      = some (Adapter.callItems cm)) ∧
    (∀ hh, (TreeDataProviderWrapper.update s (Model.history hh)).active
      = some (Adapter.historyData hh)) := by
  refine ⟨fun rm => ?_, fun cm => ?_, fun hh => ?_⟩ <;>
    cases hb : s.providerListener <;>
    rcases ha : s.active with _ | (rm2 | cm2 | hh2) <;>
    simp [TreeDataProviderWrapper.update, updateSteps, runSteps, applyStep,
      adapterFor, hb, ha, Adapter.hasDispose]

/-- Claim C7: the façade holds at most one active adapter (the `_provider`
slot is a single optional field), and from any invariant-satisfying state, at
every micro-step of `update` — every prefix of the statements it executes — at
most one adapter-to-model subscription is live; the invariant is preserved, so
this holds across arbitrarily many `update` calls; and the statement list of
`update` consists of dispose statements strictly before the construct/store,
fire and subscribe statements. -/
theorem update_single_live_subscription
    (s : FacadeState) (m : Model) (n : Nat) (h : FacadeInv s) :
    liveSubs (runSteps s ((updateSteps s m).take n)) ≤ 1 ∧
    FacadeInv (TreeDataProviderWrapper.update s m) ∧
    ∃ d, updateSteps s m = d ++ [Step.setProvider m, Step.fireRefresh, Step.subscribe] ∧
      ∀ x ∈ d, x = Step.disposeListener ∨ x = Step.disposeProvider := by
  obtain ⟨h0, h1⟩ := h
  have hfalse : (∀ rm, s.active ≠ some (Adapter.references rm)) →
      s.activeSubscribed = false := by
    intro hx
    cases hss : s.activeSubscribed
    · rfl
    · obtain ⟨rm, heq⟩ := h1 hss
      exact absurd heq (hx rm)
  refine ⟨?_, ?_, ?_⟩
  · rcases ha : s.active with _ | (rm | cm | hh) <;>
      [have hs := hfalse (by simp [ha]);
       cases hs : s.activeSubscribed;
       have hs := hfalse (by simp [ha]);
       have hs := hfalse (by simp [ha])] <;>
      cases hb : s.providerListener <;>
      rcases n with _ | _ | _ | _ | _ | _ | n <;>
      simp [updateSteps, runSteps, applyStep, liveSubs, hb, ha, hs, h0,
        Adapter.hasDispose] <;>
      (try (cases m <;> simp [adapterFor, Adapter.ctorSubscribes]))
  · rcases ha : s.active with _ | (rm | cm | hh) <;>
      [have hs := hfalse (by simp [ha]);
       cases hs : s.activeSubscribed;
       have hs := hfalse (by simp [ha]);
       have hs := hfalse (by simp [ha])] <;>
      cases hb : s.providerListener <;>
      cases m <;>
      simp [TreeDataProviderWrapper.update, updateSteps, runSteps, applyStep,
        FacadeInv, adapterFor, Adapter.ctorSubscribes, Adapter.hasDispose,
        hb, ha, hs, h0]
  · refine ⟨(if s.providerListener then [Step.disposeListener] else []) ++
      (match s.active with
       | some a => if a.hasDispose then [Step.disposeProvider] else []
       | none => []), by simp [updateSteps, List.append_assoc], ?_⟩
    intro x hx
    rcases List.mem_append.1 hx with hx | hx
    · left
      revert hx
      split <;> simp
    · right
      revert hx
      rcases s.active with _ | a
      · simp
      · simp only []
        split <;> simp

/-- Witness: `update_single_live_subscription` applied at the freshly
constructed wrapper, binding a history collaborator, observed two micro-steps
in. -/
theorem update_single_live_subscription_witness :
    FacadeInv initState ∧
    (liveSubs (runSteps initState
        ((updateSteps initState (Model.history [])).take 2)) ≤ 1 ∧
     FacadeInv (TreeDataProviderWrapper.update initState (Model.history [])) ∧
     ∃ d, updateSteps initState (Model.history [])
        = d ++ [Step.setProvider (Model.history []), Step.fireRefresh,
                Step.subscribe] ∧
       ∀ x ∈ d, x = Step.disposeListener ∨ x = Step.disposeProvider) := by
  have hinv : FacadeInv initState := by simp [FacadeInv, initState]
  exact ⟨hinv, update_single_live_subscription initState (Model.history []) 2 hinv⟩

/-- Whether a model change event carries a `FileItem` payload
(`e instanceof FileItem`). -/
def isFileItemPayload : Option Node → Bool
  | some (Node.file _) => true
  | _ => false

/-- Claim C2: the search-results adapter forwards a model change event whose
payload is a `FileItem` verbatim on its change stream, and forwards every
other event (any other payload, or none) as a single payloadless full-refresh
signal. -/
theorem references_model_events_normalized
    (f : FileItem) (e : Option Node) (h : isFileItemPayload e = false) :
    ReferencesProvider.onModelEvent (some (Node.file f)) = [some (Node.file f)] ∧
    ReferencesProvider.onModelEvent e = [none] := by
  constructor
  · rfl
  · rcases e with _ | n
    · rfl
    · cases n <;> first | rfl | simp [isFileItemPayload] at h

/-- Witness: `references_model_events_normalized` at a concrete file group and
a concrete reference-payload event. -/
theorem references_model_events_normalized_witness :
    isFileItemPayload (some (Node.reference
      { parent := { uri := "a.txt", results := [] },
        location := { line := 3, character := 0 } })) = false ∧
    (ReferencesProvider.onModelEvent
        (some (Node.file { uri := "a.txt", results := [] }))
      = [some (Node.file { uri := "a.txt", results := [] })] ∧
     ReferencesProvider.onModelEvent (some (Node.reference
      { parent := { uri := "a.txt", results := [] },
        location := { line := 3, character := 0 } })) = [none]) :=
  ⟨rfl, references_model_events_normalized { uri := "a.txt", results := [] }
    (some (Node.reference
      { parent := { uri := "a.txt", results := [] },
        location := { line := 3, character := 0 } })) rfl⟩

/-- Counterexample to claim C3 as stated: on the never-bound façade the
`getTreeItem` query faults — the non-null assertion `this._provider!`
dereferences an undefined provider — rather than yielding an empty result. -/
theorem unbound_getTreeItem_faults_cex :
    TreeDataProviderWrapper.getTreeItem
      (fun _ => { before := "", inside := "", after := "" })
      initState (Node.history { label := "H1", description := "d" })
      = Except.error "TypeError: this._provider is undefined" := rfl

/-- Claim C3 (amended): if no adapter has ever been bound, the façade's
`getChildren` and `getParent` yield none/empty and never fault, but
`getTreeItem` faults on the undefined provider. -/
theorem unbound_facade_queries (chunksOf : ReferenceItem → PreviewChunks)
    (el : Option Node) (nd n2 : Node) :
    TreeDataProviderWrapper.getChildren initState el = none ∧
    TreeDataProviderWrapper.getParent initState nd = none ∧
    TreeDataProviderWrapper.getTreeItem chunksOf initState n2
      = Except.error "TypeError: this._provider is undefined" :=
  ⟨rfl, rfl, rfl⟩

/-- Counterexample to claim C4 as stated: requesting the children of a
`HistoryItem` node under the history adapter answers the full history
snapshot again — `getChildren()` ignores the element — not an empty
sequence. -/
theorem history_node_children_cex :
    HistoryDataProvider.getChildren [{ label := "H1", description := "d1" }]
      (some (Node.history { label := "H1", description := "d1" }))
      = some [Node.history { label := "H1", description := "d1" }] ∧
    some [Node.history { label := "H1", description := "d1" }]
      ≠ some ([] : List Node) :=
  ⟨rfl, by simp⟩

/-- Claim C4 (amended): requesting the children of a `ReferenceItem` under the
search-results adapter yields no children (`undefined`), never a fault;
requesting the children of any element under the history adapter — the
adapter ignores the element argument — yields the full history snapshot,
which is empty exactly when the history is empty. -/
theorem terminal_node_children (m : ReferencesModel) (r : ReferenceItem)
    (h : History) (el : Option Node) :
    ReferencesProvider.getChildren m (some (Node.reference r)) = none ∧
    HistoryDataProvider.getChildren h el = some (h.map Node.history) :=
  ⟨rfl, rfl⟩

/-- Counterexample to claim C5 as stated: a model change event carrying a
call node does not appear on the call-hierarchy adapter's change stream — the
adapter emits nothing in reaction to it. -/
theorem calls_model_event_not_forwarded_cex :
    CallItemDataProvider.onModelEvent
      (some (Node.call (CallItem.mk
        { name := "foo", detail := "", kind := SymbolKind.functionK } none)))
      = [] ∧
    ([] : List (Option Node))
      ≠ [some (Node.call (CallItem.mk
        { name := "foo", detail := "", kind := SymbolKind.functionK } none))] :=
  ⟨rfl, by simp⟩

/-- Claim C5 (amended): the call-hierarchy adapter's change stream is silent —
its constructor registers no listener on the calls model and nothing ever
fires its emitter, so no model change event (and no sequence of them) produces
any event on the adapter's stream. -/
theorem call_adapter_stream_silent (e : Option Node) (es : List (Option Node)) :
    CallItemDataProvider.onModelEvent e = [] ∧
    (es.map CallItemDataProvider.onModelEvent).flatten = [] := by
  refine ⟨rfl, ?_⟩
  induction es with
  | nil => rfl
  | cons x t ih => simp [CallItemDataProvider.onModelEvent, ih]

/-- Claim C9: a `ReferenceItem` renders with a label that concatenates the
before-match, matched and after-match preview fragments in that order, a
single highlight span from `before.length` to `before.length + inside.length`,
and the show command carrying the node as its sole argument. -/
theorem reference_item_rendering (chunksOf : ReferenceItem → PreviewChunks)
    (r : ReferenceItem) :
    ∃ ti, ReferencesProvider.getTreeItem chunksOf (Node.reference r) = some ti ∧
      ti.label = some (LabelValue.rich
        { label := (chunksOf r).before ++ (chunksOf r).inside ++ (chunksOf r).after
          highlights := [((chunksOf r).before.length,
            (chunksOf r).before.length + (chunksOf r).inside.length)] }) ∧
      ti.command = some
        { command := "references-view.show"
          title := "Open Reference"
          arguments := [Node.reference r] } :=
  ⟨_, rfl, rfl, rfl⟩

/-- Claim C10: the static symbol-kind-to-icon table has an entry for each of
the 26 `SymbolKind` values, so the icon resolver returns a defined theme icon
for every valid kind and the no-icon fallback is never taken. -/
theorem theme_icon_defined_for_every_symbol_kind (k : SymbolKind) :
    (CallItemDataProvider.themeIconIds k).isSome = true ∧
    (CallItemDataProvider.getThemeIcon k).isSome = true := by
  cases k <;> exact ⟨rfl, rfl⟩

